import Mathlib

/-
  Verification of a small Go HTTP microservice (users CRUD + media upload
  pipeline) against its natural-language specification.

  The Go source is shallowly embedded: pure helpers become Lean functions,
  stateful operations become explicit state passing over in-memory store /
  filesystem models, and the request-middleware chain becomes function
  composition over an explicit request-context value.  External collaborators
  (image codecs, random generators, clocks) are abstracted as parameters.
-/

set_option autoImplicit false

namespace GoSrv

/-! ## Go error values (internal/errors/errors.go) -/

/-- Environment-level Go errors (context cancellation, os errors, io errors).
These are opaque causes carried inside classified application errors. -/
inductive GoErr where
  | cancelled (msg : String)
  | osNotExist
  | osOther (msg : String)
  | ioErr (msg : String)
  deriving DecidableEq, Repr

/-- Models os.IsNotExist. -/
def goIsNotExist : GoErr → Bool
  | .osNotExist => true
  | _ => false

/-- A Go error interface value as it crosses the service/handler boundary.
nilErr is the nil interface value (used for the unset cause field of an
AppError); the app constructor is the AppError of internal/errors/errors.go
(code, message, wrapped cause); wrapped models an error built with
fmt.Errorf and a %w verb; fromGo lifts an environment error; basic is any
other plain error. -/
inductive Err where
  | nilErr
  | app (code : String) (message : String) (cause : Err)
  | wrapped (msg : String) (inner : Err)
  | fromGo (e : GoErr)
  | basic (msg : String)
  deriving DecidableEq, Repr

def ErrCodeNotFound : String := "NOT_FOUND"
def ErrCodeBadRequest : String := "BAD_REQUEST"
def ErrCodeInternal : String := "INTERNAL_ERROR"
def ErrCodeInvalidID : String := "INVALID_ID"
def ErrCodeFileTooLarge : String := "FILE_TOO_LARGE"
def ErrCodeUnsupported : String := "UNSUPPORTED_TYPE"

def NotFound (message : String) : Err :=
  .app ErrCodeNotFound message .nilErr

def BadRequest (message : String) : Err :=
  .app ErrCodeBadRequest message .nilErr

def Internal (message : String) (err : Err) : Err :=
  .app ErrCodeInternal message err

def InvalidID (message : String) : Err :=
  .app ErrCodeInvalidID message .nilErr

def FileTooLarge (message : String) : Err :=
  .app ErrCodeFileTooLarge message .nilErr

def UnsupportedType (message : String) : Err :=
  .app ErrCodeUnsupported message .nilErr

/-- GetAppError from internal/errors/errors.go: recover the classified
AppError from a possibly wrapped error, or report none.  The AppError type
itself declares no Unwrap method, so errors.As never descends through an
AppError's cause field; it unwraps only fmt.Errorf-style wrappers. -/
def GetAppError : Err → Option Err
  | .nilErr => none
  | .app code message cause => some (.app code message cause)
  | .wrapped _ inner => GetAppError inner
  | .fromGo _ => none
  | .basic _ => none

/-- The code carried by a classified error, if any. -/
def errCode : Err → Option String
  | .app code _ _ => some code
  | _ => none

/-! ## Handler status-code mapping (users/handler.go and media/handler.go) -/

/-- getStatusCode from internal/users/handler.go (lines 151-169): the users
handler mapping from an error to an HTTP status code.  The input none models
a nil Go error. -/
def getStatusCode : Option Err → Nat
  | none => 200
  | some e =>
    match GetAppError e with
    | some (.app code _ _) =>
      if code = ErrCodeNotFound then 404
      else if code = ErrCodeBadRequest ∨ code = ErrCodeInvalidID then 400
      else 500
    | _ => 500

/-- getMediaStatusCode from internal/media/handler.go (lines 367-387): the
media handler mapping from an error to an HTTP status code. -/
def getMediaStatusCode : Option Err → Nat
  | none => 200
  | some e =>
    match GetAppError e with
    | some (.app code _ _) =>
      if code = ErrCodeNotFound then 404
      else if code = ErrCodeBadRequest ∨ code = ErrCodeInvalidID ∨
          code = ErrCodeUnsupported then 400
      else if code = ErrCodeFileTooLarge then 413
      else 500
    | _ => 500

/-! ## String and path helpers (Go standard library, as used by the source) -/

/-- sub occurs as a contiguous run inside hay. -/
def charsContain (sub hay : List Char) : Bool :=
  hay.tails.any (fun t => sub.isPrefixOf t)

/-- strings.Contains s sub: sub occurs as a substring of s. -/
def goContains (s sub : String) : Bool :=
  charsContain sub.toList s.toList

/-- One character of strings.ToLower.  Restricted to the mappings that can
produce ASCII output: ASCII A-Z, plus U+0130 (maps to i) and U+212A (maps to
k); every other Unicode lowercase mapping stays outside ASCII and so can
never influence the ASCII-only extension table below. -/
def goLowerChar (c : Char) : Char :=
  if 0x41 ≤ c.toNat ∧ c.toNat ≤ 0x5A then Char.ofNat (c.toNat + 32)
  else if c.toNat = 0x130 then Char.ofNat 0x69
  else if c.toNat = 0x212A then Char.ofNat 0x6B
  else c

/-- strings.ToLower. -/
def goToLower (s : String) : String := s.map goLowerChar

/-- filepath.Ext: the suffix beginning at the final dot in the final path
element, or the empty string when that element has no dot. -/
def goPathExt (name : String) : String :=
  let seg := name.toList.reverse.takeWhile (fun c => c ≠ '/')
  if seg.any (fun c => c = '.') then
    String.mk ('.' :: (seg.takeWhile (fun c => c ≠ '.')).reverse)
  else ""

def parseDigitsAux : List Char → Nat → Option Nat
  | [], acc => some acc
  | c :: rest, acc =>
    if '0' ≤ c ∧ c ≤ '9' then
      parseDigitsAux rest (acc * 10 + (c.toNat - 48))
    else none

/-- strconv.Atoi: optional sign, then base-10 digits, nonempty, rejecting
values outside the int64 range (Atoi reports ErrRange there, which the
caller treats as a parse failure). -/
def goAtoi (s : String) : Option Int :=
  match s.toList with
  | [] => none
  | '+' :: rest =>
    if rest = [] then none
    else (parseDigitsAux rest 0).bind fun n =>
      if n ≤ 9223372036854775807 then some (n : Int) else none
  | '-' :: rest =>
    if rest = [] then none
    else (parseDigitsAux rest 0).bind fun n =>
      if n ≤ 9223372036854775808 then some (-(n : Int)) else none
  | l =>
    (parseDigitsAux l 0).bind fun n =>
      if n ≤ 9223372036854775807 then some (n : Int) else none

/-! ## Media data model (internal/media/model.go) and stores -/

/-- image.Rectangle.  Images decoded by the standard codecs have Min = (0,0)
and Max = (width, height). -/
structure Rect where
  minX : Int
  minY : Int
  maxX : Int
  maxY : Int
  deriving DecidableEq, Repr

/-- A decoded image.Image: its bounds plus an opaque pixel-content tag, so
that distinct decoded images are not identified by the model. -/
structure GoImage where
  bounds : Rect
  pix : Nat
  deriving DecidableEq, Repr

/-- The image codecs used by the service (image/jpeg, image/png,
golang.org/x/image/webp), abstracted as environment parameters.  Decoding
yields none on a decode error; encoding takes the quality option of
jpeg.Options and yields none on an encode error. -/
structure Codecs where
  jpegDecode : List Nat → Option GoImage
  pngDecode : List Nat → Option GoImage
  webpDecode : List Nat → Option GoImage
  jpegEncode : Nat → GoImage → Option (List Nat)

/-- Media from internal/media/model.go. -/
structure Media where
  id : String
  originalName : String
  storedName : String
  type : String
  format : String
  sizeBytes : Int
  filePath : String
  uploadedAt : Int
  width : Int
  height : Int
  deriving DecidableEq, Repr

/-- The in-memory media store: the map guarded by the repository's lock,
modelled as an association list where the most recent binding wins. -/
structure MediaStore where
  items : List (String × Media)
  deriving DecidableEq, Repr

def mediaStoreFind (st : MediaStore) (id : String) : Option Media :=
  (st.items.find? (fun p => p.fst == id)).map Prod.snd

/-- A Go context as seen by ctx.Err(): none when live, some cause when the
context is already cancelled. -/
def Ctx : Type := Option Err

/-- InMemoryRepository.Save from internal/media/repository.go: context
check, empty-ID check, then map insert. -/
def mediaRepoSave (ctx : Ctx) (st : MediaStore) (m : Media) : Except Err MediaStore :=
  match ctx with
  | some e => .error (Internal "context cancelled" e)
  | none =>
    if m.id = "" then .error (BadRequest "media ID is required")
    else .ok { items := (m.id, m) :: st.items }

/-- InMemoryRepository.GetByID from internal/media/repository.go. -/
def mediaRepoGetByID (ctx : Ctx) (st : MediaStore) (id : String) : Except Err Media :=
  match ctx with
  | some e => .error (Internal "context cancelled" e)
  | none =>
    match mediaStoreFind st id with
    | none => .error (NotFound "media not found")
    | some m => .ok m

/-- InMemoryRepository.GetAll from internal/media/repository.go. -/
def mediaRepoGetAll (ctx : Ctx) (st : MediaStore) : Except Err (List Media) :=
  match ctx with
  | some e => .error (Internal "context cancelled" e)
  | none => .ok (st.items.map Prod.snd)

/-- InMemoryRepository.Delete from internal/media/repository.go. -/
def mediaRepoDelete (ctx : Ctx) (st : MediaStore) (id : String) : Except Err MediaStore :=
  match ctx with
  | some e => .error (Internal "context cancelled" e)
  | none =>
    if st.items.any (fun p => p.fst == id) then
      .ok { items := st.items.filter (fun p => p.fst != id) }
    else .error (NotFound "media not found")

/-! ## Filesystem model (os.WriteFile / os.Remove as used by the service) -/

/-- The filesystem under the storage root, with explicit fault sets: paths
where a write fails, and paths where removal fails for a reason other than
absence. -/
structure FS where
  files : List (String × List Nat)
  failWrite : List String
  failRemove : List String
  deriving DecidableEq, Repr

/-- os.WriteFile. -/
def fsWrite (fs : FS) (path : String) (bytes : List Nat) : Except GoErr FS :=
  if fs.failWrite.contains path then .error (.osOther "write failed")
  else .ok { fs with files := (path, bytes) :: fs.files.filter (fun p => p.fst != path) }

/-- os.Remove: removing an absent file reports the os not-exist error. -/
def fsRemove (fs : FS) (path : String) : Except GoErr FS :=
  if fs.failRemove.contains path then .error (.osOther "remove failed")
  else if fs.files.any (fun p => p.fst == path) then
    .ok { fs with files := fs.files.filter (fun p => p.fst != path) }
  else .error .osNotExist

def fsFind (fs : FS) (path : String) : Option (List Nat) :=
  (fs.files.find? (fun p => p.fst == path)).map Prod.snd

instance {ε α : Type} [DecidableEq ε] [DecidableEq α] : DecidableEq (Except ε α) := fun a b =>
  match a, b with
  | .ok x, .ok y => if h : x = y then isTrue (h ▸ rfl) else isFalse (by simp [h])
  | .error x, .error y => if h : x = y then isTrue (h ▸ rfl) else isFalse (by simp [h])
  | .ok _, .error _ => isFalse (by simp)
  | .error _, .ok _ => isFalse (by simp)

/-- multipart.FileHeader together with the stream behavior of the underlying
part: the client-declared filename, size and content type, and what Open and
io.ReadAll observe on the stream. -/
structure FileHeader where
  filename : String
  size : Int
  contentType : String
  openErr : Option GoErr
  content : Except GoErr (List Nat)
  deriving DecidableEq, Repr

/-- The nondeterministic environment of one upload: the uuid.New values used
for the stored name and the record id, and the clock readings. -/
structure Gen where
  nameTok : String
  mediaID : String
  nanos : Int
  now : Int
  deriving DecidableEq, Repr

/-- Ghost trace of the externally visible effects of a service operation,
in the order they are performed. -/
inductive Eff where
  | openFile
  | readFile
  | encodeImg (quality : Nat)
  | writeFile (path : String)
  | removeFile (path : String)
  | storeSave (id : String)
  | storeLoad (id : String)
  | storeList
  | storeDelete (id : String)
  deriving DecidableEq, Repr

/-! ## Media service constants and helpers (internal/media/service.go) -/

def MaxFileSize : Int := 200 * 1024 * 1024

def MediaStoragePath : String := "./uploads"

def ImageQuality : Nat := 85

def SupportedImageFormats : List String :=
  ["image/jpeg", "image/png", "image/webp", "image/gif"]

def SupportedFormats : List String :=
  SupportedImageFormats ++ ["application/pdf"]

def isValidContentType (contentType : String) : Bool :=
  SupportedFormats.any (fun ct => goContains contentType ct)

def isImageType (contentType : String) : Bool :=
  SupportedImageFormats.any (fun ct => goContains contentType ct)

def isPDFType (contentType : String) : Bool :=
  goContains contentType "application/pdf"

/-- getContentTypeFromName from internal/media/service.go: extension-based
content-type fallback. -/
def getContentTypeFromName (filename : String) : String :=
  let ext := goToLower (goPathExt filename)
  if ext = ".jpg" ∨ ext = ".jpeg" then "image/jpeg"
  else if ext = ".png" then "image/png"
  else if ext = ".webp" then "image/webp"
  else if ext = ".gif" then "image/gif"
  else if ext = ".pdf" then "application/pdf"
  else ""

/-- The content type resolved by UploadMedia: the declared header value, or
the extension fallback when the header value is empty. -/
def resolveContentType (declared filename : String) : String :=
  if declared = "" then getContentTypeFromName filename else declared

/-! ## optimizeImage and UploadMedia (internal/media/service.go) -/

/-- The decode dispatch inside optimizeImage (media/service.go lines
160-171): the switch over the content type selecting the decoding codec.
The case for gif invokes the png codec.  Returns none for the default
branch (unsupported image format). -/
def decodeSwitch (c : Codecs) (contentType : String) :
    Option (List Nat → Option GoImage) :=
  if goContains contentType "jpeg" then some c.jpegDecode
  else if goContains contentType "png" then some c.pngDecode
  else if goContains contentType "webp" then some c.webpDecode
  else if goContains contentType "gif" then some c.pngDecode
  else none

/-- optimizeImage (media/service.go lines 154-190): decode by content type,
capture the pre-encode bounds, re-encode with jpeg.Encode at ImageQuality.
Returns the re-encoded bytes and the bounds. -/
def optimizeImage (c : Codecs) (fileBytes : List Nat) (contentType : String) :
    Except GoErr (List Nat × Rect) :=
  match decodeSwitch c contentType with
  | none => .error (.ioErr "unsupported image format")
  | some dec =>
    match dec fileBytes with
    | none => .error (.ioErr "failed to decode image")
    | some img =>
      match c.jpegEncode ImageQuality img with
      | none => .error (.ioErr "failed to encode image")
      | some out => .ok (out, img.bounds)

/-- The integer nearest to a/d, rounding an exact half to the even
quotient.  This is the rounding used both by int64-to-float64 conversion
and by the fixed-precision decimal formatter in Go's strconv (an exact
trailing decimal tie rounds up only when the preceding digit is odd). -/
def roundHalfEven (a d : Nat) : Nat :=
  if 2 * (a % d) < d then a / d
  else if 2 * (a % d) > d then a / d + 1
  else if (a / d) % 2 = 0 then a / d else a / d + 1

/-- float64(a) for a nonnegative int64 value a: exact below 2^53, otherwise
rounded to 53 significant bits with ties to even (the quotient by 2^k is
the 53-bit mantissa, so an even quotient is a mantissa with last bit 0). -/
def float64OfNonnegInt64 (a : Nat) : Nat :=
  if a < 2 ^ 53 then a
  else 2 ^ (a.log2 - 52) * roundHalfEven a (2 ^ (a.log2 - 52))

/-- fmt.Sprintf with one %.2f verb applied to float64(size)/(1024*1024),
for size ≥ 0 (the service builds this message only when size exceeds
MaxFileSize, so only positive sizes reach the formatter).  The divisor 2^20
is a power of two and the value stays far below the float64 range, so the
division is exact on the converted value; %.2f then prints the exact
decimal expansion of that binary value rounded at two decimals with ties to
even.  The printed digits are therefore the decimal numeral of
roundHalfEven (100 * float64(size)) 2^20, split two places from the end. -/
def fmtMB2 (size : Int) : String :=
  let n := roundHalfEven (100 * float64OfNonnegInt64 size.toNat) 1048576
  let frac := n % 100
  toString (n / 100) ++ "." ++
    (if frac < 10 then "0" ++ toString frac else toString frac)

/-- The FileTooLarge message of UploadMedia (media/service.go line 58). -/
def uploadSizeMsg (size : Int) : String :=
  "file size exceeds maximum limit of 200 MB (file size: " ++ fmtMB2 size ++ " MB)"

/-- The UnsupportedType message of UploadMedia (media/service.go line 78). -/
def unsupportedMsg (contentType : String) : String :=
  "unsupported file type: " ++ contentType ++ ". Supported types: JPEG, PNG, WebP, GIF, PDF"

/-- The result of a media service operation: the returned value or error,
the filesystem and store after the call, and the ghost effect trace. -/
def UploadOut : Type := Except Err Media × FS × MediaStore × List Eff

/-- The tail of UploadMedia after the format branch (media/service.go lines
114-150): stored-name generation, file write, record construction, store
registration.  filepath.Join("./uploads", name) cleans the leading dot
segment, yielding uploads/name. -/
def uploadFinish (gen : Gen) (ctx : Ctx) (fh : FileHeader) (fs : FS)
    (st : MediaStore) (mediaType format : String) (fileBytes : List Nat)
    (dims : Rect) (tr : List Eff) : UploadOut :=
  let storedName := gen.nameTok ++ "_" ++ toString gen.nanos ++ "." ++ format
  let filePath := "uploads/" ++ storedName
  match fsWrite fs filePath fileBytes with
  | .error e =>
    (.error (Internal "failed to save file" (.fromGo e)), fs, st,
      tr ++ [.writeFile filePath])
  | .ok fs2 =>
    let m : Media :=
      { id := gen.mediaID
        originalName := fh.filename
        storedName := storedName
        type := mediaType
        format := format
        sizeBytes := (fileBytes.length : Int)
        filePath := filePath
        uploadedAt := gen.now
        width := if mediaType = "image" ∧ 0 < dims.maxX then dims.maxX else 0
        height := if mediaType = "image" ∧ 0 < dims.maxX then dims.maxY else 0 }
    match mediaRepoSave ctx st m with
    | .error e =>
      (.error (Internal "failed to save media to repository" e), fs2, st,
        tr ++ [.writeFile filePath, .storeSave m.id])
    | .ok st2 =>
      (.ok m, fs2, st2, tr ++ [.writeFile filePath, .storeSave m.id])

/-- UploadMedia (media/service.go lines 51-151), with the filesystem and
media store passed explicitly and the ghost effect trace returned. -/
def UploadMedia (gen : Gen) (c : Codecs) (ctx : Ctx) (fh : FileHeader)
    (fs : FS) (st : MediaStore) : UploadOut :=
  match ctx with
  | some e => (.error (Internal "context cancelled" e), fs, st, [])
  | none =>
    if fh.size > MaxFileSize then
      (.error (FileTooLarge (uploadSizeMsg fh.size)), fs, st, [])
    else
      match fh.openErr with
      | some e =>
        (.error (Internal "failed to open file" (.fromGo e)), fs, st, [.openFile])
      | none =>
        let contentType := resolveContentType fh.contentType fh.filename
        if ¬ isValidContentType contentType then
          (.error (UnsupportedType (unsupportedMsg contentType)), fs, st, [.openFile])
        else if isImageType contentType then
          match fh.content with
          | .error e =>
            (.error (.wrapped "failed to read file" (.fromGo e)), fs, st,
              [.openFile, .readFile])
          | .ok bytes =>
            match optimizeImage c bytes contentType with
            | .error e =>
              (.error (Internal "failed to optimize image" (.fromGo e)), fs, st,
                [.openFile, .readFile])
            | .ok (optimized, dims) =>
              uploadFinish gen ctx fh fs st "image" "webp" optimized dims
                [.openFile, .readFile, .encodeImg ImageQuality]
        else if isPDFType contentType then
          match fh.content with
          | .error e =>
            (.error (Internal "failed to read file" (.fromGo e)), fs, st,
              [.openFile, .readFile])
          | .ok bytes =>
            uploadFinish gen ctx fh fs st "pdf" "pdf" bytes ⟨0, 0, 0, 0⟩
              [.openFile, .readFile]
        else
          uploadFinish gen ctx fh fs st "" "" [] ⟨0, 0, 0, 0⟩ [.openFile]

/-- GetMedia (media/service.go lines 203-214). -/
def GetMedia (ctx : Ctx) (st : MediaStore) (id : String) :
    Except Err Media × MediaStore × List Eff :=
  match ctx with
  | some e => (.error (Internal "context cancelled" e), st, [])
  | none =>
    match mediaRepoGetByID ctx st id with
    | .error e => (.error e, st, [.storeLoad id])
    | .ok m => (.ok m, st, [.storeLoad id])

/-- GetAllMedia (media/service.go lines 217-228). -/
def GetAllMedia (ctx : Ctx) (st : MediaStore) :
    Except Err (List Media) × MediaStore × List Eff :=
  match ctx with
  | some e => (.error (Internal "context cancelled" e), st, [])
  | none =>
    match mediaRepoGetAll ctx st with
    | .error e => (.error (Internal "failed to retrieve media" e), st, [.storeList])
    | .ok l => (.ok l, st, [.storeList])

/-- DeleteMedia (media/service.go lines 231-251): look the record up, remove
the on-disk file tolerating absence, then remove the record. -/
def DeleteMedia (ctx : Ctx) (st : MediaStore) (fs : FS) (id : String) :
    Except Err Unit × MediaStore × FS × List Eff :=
  match ctx with
  | some e => (.error (Internal "context cancelled" e), st, fs, [])
  | none =>
    match mediaRepoGetByID ctx st id with
    | .error e => (.error e, st, fs, [.storeLoad id])
    | .ok m =>
      match fsRemove fs m.filePath with
      | .error e =>
        if ¬ goIsNotExist e then
          (.error (Internal "failed to delete file" (.fromGo e)), st, fs,
            [.storeLoad id, .removeFile m.filePath])
        else
          match mediaRepoDelete ctx st id with
          | .error e2 =>
            (.error e2, st, fs, [.storeLoad id, .removeFile m.filePath, .storeDelete id])
          | .ok st2 =>
            (.ok (), st2, fs, [.storeLoad id, .removeFile m.filePath, .storeDelete id])
      | .ok fs2 =>
        match mediaRepoDelete ctx st id with
        | .error e2 =>
          (.error e2, st, fs2, [.storeLoad id, .removeFile m.filePath, .storeDelete id])
        | .ok st2 =>
          (.ok (), st2, fs2, [.storeLoad id, .removeFile m.filePath, .storeDelete id])

/-! ## Users data model, repository and service
(internal/users/service.go, src/unnamed/part_000) -/

structure User where
  id : Int
  name : String
  email : String
  age : Int
  deriving DecidableEq, Repr

structure CreateUserRequest where
  name : String
  email : String
  age : Int
  deriving DecidableEq, Repr

/-- The in-memory users store: the map guarded by the repository's lock and
the id counter, modelled as an association list where the most recent
binding wins. -/
structure UsersStore where
  users : List (Int × User)
  nextID : Int
  deriving DecidableEq, Repr

def usersStoreFind (st : UsersStore) (id : Int) : Option User :=
  (st.users.find? (fun p => p.fst == id)).map Prod.snd

/-- InMemoryRepository.Create (internal/users/service.go lines 97-110):
context check, then assign nextID to the user, insert, increment. -/
def userRepoCreate (ctx : Ctx) (st : UsersStore) (u : User) :
    Except Err (User × UsersStore) :=
  match ctx with
  | some e => .error (Internal "context cancelled" e)
  | none =>
    let u2 := { u with id := st.nextID }
    .ok (u2, { users := (st.nextID, u2) :: st.users, nextID := st.nextID + 1 })

/-- InMemoryRepository.GetByID (internal/users/service.go lines 113-126). -/
def userRepoGetByID (ctx : Ctx) (st : UsersStore) (id : Int) : Except Err User :=
  match ctx with
  | some e => .error (Internal "context cancelled" e)
  | none =>
    match usersStoreFind st id with
    | none => .error (NotFound "user not found")
    | some u => .ok u

def seedUser (st : UsersStore) (name email : String) (age : Int) : UsersStore :=
  match userRepoCreate none st { id := 0, name := name, email := email, age := age } with
  | .ok (_, st2) => st2
  | .error _ => st

/-- NewInMemoryRepository (internal/users/service.go lines 76-94): empty map,
nextID = 1, then the three dummy users created through Create. -/
def NewUsersInMemoryRepository : UsersStore :=
  seedUser
    (seedUser
      (seedUser { users := [], nextID := 1 } "John Doe" "john@example.com" 30)
      "Jane Smith" "jane@example.com" 28)
    "Bob Johnson" "bob@example.com" 35

/-- Service.CreateUser (src/unnamed/part_000 lines 21-41): context check,
empty name/email check, then repository Create. -/
def CreateUser (ctx : Ctx) (st : UsersStore) (req : CreateUserRequest) :
    Except Err User × UsersStore :=
  match ctx with
  | some e => (.error (Internal "context cancelled" e), st)
  | none =>
    if req.name = "" ∨ req.email = "" then
      (.error (BadRequest "name and email are required"), st)
    else
      match userRepoCreate ctx st
          { id := 0, name := req.name, email := req.email, age := req.age } with
      | .error e => (.error (Internal "failed to create user" e), st)
      | .ok (u, st2) => (.ok u, st2)

/-- Service.GetUser (src/unnamed/part_000 lines 43-58): context check,
positivity check on the id, then repository lookup. -/
def ServiceGetUser (ctx : Ctx) (st : UsersStore) (id : Int) : Except Err User :=
  match ctx with
  | some e => .error (Internal "context cancelled" e)
  | none =>
    if id ≤ 0 then .error (InvalidID "user id must be positive")
    else userRepoGetByID ctx st id

/-! ## Request-context middleware chain
(internal/middleware/, internal/users/handler.go) -/

/-- A request-scoped context value: what the code stores under string keys
with context.WithValue. -/
inductive CtxVal where
  | str (s : String)
  | int (n : Int)
  | user (u : User)
  deriving DecidableEq, Repr

/-- Request-scoped storage: a chain of context.WithValue wrappers, most
recent binding first. -/
def ReqCtx : Type := List (String × CtxVal)

def ctxValue (c : ReqCtx) (key : String) : Option CtxVal :=
  (c.find? (fun p => p.fst == key)).map Prod.snd

/-- The type assertion r.Context().Value("user").(*User): succeeds only when
the entry holds a User. -/
def ctxUserAssert (c : ReqCtx) : Option User :=
  match ctxValue c "user" with
  | some (.user u) => some u
  | _ => none

/-- The type assertion r.Context().Value("userID").(int). -/
def ctxUserIDAssert (c : ReqCtx) : Option Int :=
  match ctxValue c "userID" with
  | some (.int n) => some n
  | _ => none

structure Request where
  reqCtx : ReqCtx
  goCtx : Ctx
  idParam : String
  authHeader : String

structure Resp where
  status : Nat
  body : String
  deriving DecidableEq, Repr

/-- Ghost trace of which chain stages ran and what they did. -/
inductive MwEv where
  | authRan
  | validateRan
  | loadRan
  | handlerRan
  | userLookup (id : Int)
  deriving DecidableEq, Repr

/-- An http.Handler over the users store, instrumented with a ghost event
trace. -/
def HandlerFn : Type := Request → UsersStore → Resp × List MwEv

/-- LoggingMiddleware (src/unnamed/part_004): logs on entry and exit and
otherwise passes the request through unchanged. -/
def LoggingMiddleware (next : HandlerFn) : HandlerFn := next

/-- AuthMiddleware (src/unnamed/part_005 lines 9-21): reject with 401 when
the Authorization header is absent; otherwise store the raw header string in
request-scoped storage under the key user and continue. -/
def AuthMiddleware (next : HandlerFn) : HandlerFn := fun r st =>
  if r.authHeader = "" then (⟨401, "Missing authorization header"⟩, [.authRan])
  else
    let out := next { r with reqCtx := ("user", .str r.authHeader) :: r.reqCtx } st
    (out.fst, .authRan :: out.snd)

/-- ValidateIDMiddleware (internal/middleware/path_params.go lines 13-28):
parse the id path segment with strconv.Atoi; on failure answer 400; on
success store the integer under the key userID and continue. -/
def ValidateIDMiddleware (next : HandlerFn) : HandlerFn := fun r st =>
  match goAtoi r.idParam with
  | none => (⟨400, "Invalid ID format"⟩, [.validateRan])
  | some id =>
    let out := next { r with reqCtx := ("userID", .int id) :: r.reqCtx } st
    (out.fst, .validateRan :: out.snd)

/-- LoadUserMiddleware (internal/middleware/load_user.go lines 14-38): read
the validated id from request-scoped storage (500 when absent), look the
user up (404 when not found), store it under the key user and continue. -/
def LoadUserMiddleware (next : HandlerFn) : HandlerFn := fun r st =>
  match ctxUserIDAssert r.reqCtx with
  | none => (⟨500, "User ID not found in context"⟩, [.loadRan])
  | some id =>
    match userRepoGetByID r.goCtx st id with
    | .error _ => (⟨404, "User not found"⟩, [.loadRan, .userLookup id])
    | .ok u =>
      let out := next { r with reqCtx := ("user", .user u) :: r.reqCtx } st
      (out.fst, .loadRan :: .userLookup id :: out.snd)

def userJSON (u : User) : String :=
  "\x7b\"id\":" ++ toString u.id ++ ",\"name\":\"" ++ u.name ++
    "\",\"email\":\"" ++ u.email ++ "\",\"age\":" ++ toString u.age ++ "\x7d"

/-- Handler.GetUser (internal/users/handler.go lines 86-98): read the
preloaded user from request-scoped storage; 404 when the typed read fails. -/
def GetUserTerminal : HandlerFn := fun r _ =>
  match ctxUserAssert r.reqCtx with
  | none => (⟨404, "user not found"⟩, [.handlerRan])
  | some u => (⟨200, userJSON u⟩, [.handlerRan])

/-- The GET /users/:id chain exactly as registered by RegisterRoutes
(internal/users/handler.go lines 26-46): logging, auth, then loadUserMw,
then validateIDMw, then the terminal handler — in that registration order,
which is also the execution order. -/
def UsersIDGetChain : HandlerFn :=
  LoggingMiddleware (AuthMiddleware (LoadUserMiddleware (ValidateIDMiddleware GetUserTerminal)))

/-! ## Concrete fixtures used by witnesses and counterexamples -/

def emptyFS : FS := { files := [], failWrite := [], failRemove := [] }

def emptyMediaStore : MediaStore := { items := [] }

def sampleGen : Gen := { nameTok := "4f2c", mediaID := "9a1b", nanos := 42, now := 7 }

def sampleImg : GoImage := { bounds := ⟨0, 0, 640, 480⟩, pix := 3 }

/-- A concrete codec environment: the two-byte string 255 216 decodes as a
JPEG of bounds 640 by 480, and the JPEG encoder emits a five-byte buffer. -/
def sampleCodecs : Codecs where
  jpegDecode := fun b => if b = [255, 216] then some sampleImg else none
  pngDecode := fun _ => none
  webpDecode := fun _ => none
  jpegEncode := fun _ _ => some [1, 2, 3, 4, 5]

def sampleJPEGHeader : FileHeader :=
  { filename := "photo.jpg", size := 1000, contentType := "image/jpeg",
    openErr := none, content := .ok [255, 216] }

def sampleMedia : Media :=
  { id := "m1", originalName := "a.png", storedName := "s1.webp",
    type := "image", format := "webp", sizeBytes := 4,
    filePath := "uploads/s1.webp", uploadedAt := 0, width := 2, height := 3 }

def sampleMediaStore : MediaStore := { items := [("m1", sampleMedia)] }

def failRemoveFS : FS :=
  { files := [], failWrite := [], failRemove := ["uploads/s1.webp"] }

/-! ## Claims -/

/-- C1.  The spec requires ID validation to run before entity loading on
every /users/:id route, answering a malformed id with 400 (InvalidID) and
never invoking the load stage or the terminal handler.  The code registers
the middlewares in the opposite order (r.Use(loadUserMw) before
r.Use(validateIDMw) in RegisterRoutes), so the load stage runs first, finds
no validated id in request-scoped storage, and answers 500 — for a
malformed id (and indeed for every id).  The validation stage and the
terminal handler never run, and the users store is never consulted. -/
theorem c1_users_id_chain_runs_load_before_validate :
    UsersIDGetChain
        { reqCtx := [], goCtx := none, idParam := "abc", authHeader := "Bearer tok" }
        NewUsersInMemoryRepository =
      ({ status := 500, body := "User ID not found in context" }, [.authRan, .loadRan]) ∧
    UsersIDGetChain
        { reqCtx := [], goCtx := none, idParam := "1", authHeader := "Bearer tok" }
        NewUsersInMemoryRepository =
      ({ status := 500, body := "User ID not found in context" }, [.authRan, .loadRan]) :=
  ⟨rfl, rfl⟩

/-- C2, counterexample.  The users handler's mapping getStatusCode sends
FileTooLarge and UnsupportedType to 500, while the media handler's mapping
getMediaStatusCode sends FileTooLarge to 413 — so the claimed single total
mapping used by every handler does not exist in the code. -/
theorem c2_users_mapping_disagrees :
    getStatusCode (some (FileTooLarge "f")) = 500 ∧
    getStatusCode (some (UnsupportedType "u")) = 500 ∧
    getMediaStatusCode (some (FileTooLarge "f")) = 413 ∧
    getMediaStatusCode (some (UnsupportedType "u")) = 400 ∧
    (500 : Nat) ≠ 413 :=
  ⟨rfl, rfl, rfl, rfl, by decide⟩

/-- C2, amended.  The media handler's mapping getMediaStatusCode is total
and maps NotFound to 404, BadRequest, InvalidID and UnsupportedType to 400,
FileTooLarge to 413, and Internal or any unclassified error to 500.  The
users handler uses its own separate mapping getStatusCode, which agrees on
NotFound, BadRequest, InvalidID, Internal and unclassified errors but sends
FileTooLarge and UnsupportedType to 500. -/
theorem c2_status_code_mappings :
    (∀ msg : String, ∀ cause : Err,
      getMediaStatusCode (some (NotFound msg)) = 404 ∧
      getMediaStatusCode (some (BadRequest msg)) = 400 ∧
      getMediaStatusCode (some (InvalidID msg)) = 400 ∧
      getMediaStatusCode (some (UnsupportedType msg)) = 400 ∧
      getMediaStatusCode (some (FileTooLarge msg)) = 413 ∧
      getMediaStatusCode (some (Internal msg cause)) = 500 ∧
      getMediaStatusCode (some (.basic msg)) = 500 ∧
      getStatusCode (some (NotFound msg)) = 404 ∧
      getStatusCode (some (BadRequest msg)) = 400 ∧
      getStatusCode (some (InvalidID msg)) = 400 ∧
      getStatusCode (some (Internal msg cause)) = 500 ∧
      getStatusCode (some (.basic msg)) = 500 ∧
      getStatusCode (some (FileTooLarge msg)) = 500 ∧
      getStatusCode (some (UnsupportedType msg)) = 500) ∧
    (∀ e : Option Err,
      getMediaStatusCode e ∈ ([200, 400, 404, 413, 500] : List Nat) ∧
      getStatusCode e ∈ ([200, 400, 404, 500] : List Nat)) := by
  constructor
  · intro msg cause
    refine ⟨rfl, ?_, ?_, ?_, ?_, ?_, rfl, rfl, ?_, ?_, ?_, rfl, ?_, ?_⟩ <;>
      simp [getMediaStatusCode, getStatusCode, GetAppError, NotFound, BadRequest,
        InvalidID, UnsupportedType, FileTooLarge, Internal, ErrCodeNotFound,
        ErrCodeBadRequest, ErrCodeInvalidID, ErrCodeUnsupported,
        ErrCodeFileTooLarge, ErrCodeInternal]
  · intro e
    match e with
    | none => exact ⟨by simp [getMediaStatusCode], by simp [getStatusCode]⟩
    | some e =>
      constructor
      · cases h : GetAppError e with
        | none => simp [getMediaStatusCode, h]
        | some ae =>
          cases ae <;> simp only [getMediaStatusCode, h] <;>
            first | (split_ifs <;> simp) | simp
      · cases h : GetAppError e with
        | none => simp [getStatusCode, h]
        | some ae =>
          cases ae <;> simp only [getStatusCode, h] <;>
            first | (split_ifs <;> simp) | simp

/-- C6.  In the decode dispatch of optimizeImage, the branch taken for a
content type containing gif (when none of the earlier jpeg, png, webp cases
match) selects exactly the png codec — the same decode function the png
branch selects — so the gif and png paths are extensionally equal on every
byte buffer. -/
theorem c6_gif_decodes_via_png_codec (c : Codecs) (ct : String)
    (hgif : goContains ct "gif" = true) (hjpeg : goContains ct "jpeg" = false)
    (hpng : goContains ct "png" = false) (hwebp : goContains ct "webp" = false) :
    decodeSwitch c ct = some c.pngDecode ∧
    decodeSwitch c "image/png" = some c.pngDecode ∧
    ∀ bytes : List Nat,
      (decodeSwitch c ct).getD (fun _ => none) bytes =
        (decodeSwitch c "image/png").getD (fun _ => none) bytes := by
  have h1 : decodeSwitch c ct = some c.pngDecode := by
    simp [decodeSwitch, hgif, hjpeg, hpng, hwebp]
  have h2 : decodeSwitch c "image/png" = some c.pngDecode := by
    simp [decodeSwitch, goContains, charsContain]
  exact ⟨h1, h2, fun bytes => by rw [h1, h2]⟩

/-- C6 witness: instantiated at the content type image/gif. -/
theorem c6_witness :
    goContains "image/gif" "gif" = true ∧ goContains "image/gif" "jpeg" = false ∧
    goContains "image/gif" "png" = false ∧ goContains "image/gif" "webp" = false ∧
    decodeSwitch sampleCodecs "image/gif" = some sampleCodecs.pngDecode :=
  ⟨by decide, by decide, by decide, by decide,
    (c6_gif_decodes_via_png_codec sampleCodecs "image/gif"
      (by decide) (by decide) (by decide) (by decide)).1⟩

/-- roundHalfEven a d is an integer nearest to a/d: it differs from the
exact quotient by at most one half. -/
theorem roundHalfEven_close (a d : Nat) (hd : 0 < d) :
    |(roundHalfEven a d : ℚ) - (a : ℚ) / d| ≤ 1 / 2 := by
  have hdq : (0 : ℚ) < (d : ℚ) := by exact_mod_cast hd
  have hd0 : (d : ℚ) ≠ 0 := ne_of_gt hdq
  have hmod : d * (a / d) + a % d = a := Nat.div_add_mod a d
  have hcast : (a : ℚ) = (d : ℚ) * ((a / d : ℕ) : ℚ) + ((a % d : ℕ) : ℚ) := by
    exact_mod_cast hmod.symm
  have ha : (a : ℚ) / d = ((a / d : ℕ) : ℚ) + ((a % d : ℕ) : ℚ) / d := by
    rw [hcast]
    field_simp
    ring
  have hrd : (0 : ℚ) ≤ ((a % d : ℕ) : ℚ) / d := by positivity
  have hle1 : ((a % d : ℕ) : ℚ) / d ≤ 1 := by
    rw [div_le_one hdq]
    exact_mod_cast le_of_lt (Nat.mod_lt _ hd)
  unfold roundHalfEven
  split_ifs with h1 h2 h3
  · have hhalf : ((a % d : ℕ) : ℚ) / d ≤ 1 / 2 := by
      rw [div_le_div_iff₀ hdq (by norm_num)]
      have hle : ((2 * (a % d) : ℕ) : ℚ) ≤ (d : ℚ) := by exact_mod_cast le_of_lt h1
      push_cast at hle
      linarith
    rw [ha, abs_le]
    constructor <;> linarith
  · have h2q : (d : ℚ) ≤ ((2 * (a % d) : ℕ) : ℚ) := by exact_mod_cast le_of_lt h2
    push_cast at h2q
    have hx : 1 / 2 ≤ ((a % d : ℕ) : ℚ) / d := by
      rw [div_le_div_iff₀ (by norm_num) hdq]
      linarith
    rw [ha, abs_le]
    constructor <;> push_cast <;> linarith
  · have h2q : ((2 * (a % d) : ℕ) : ℚ) = (d : ℚ) := by
      exact_mod_cast le_antisymm (not_lt.mp h2) (not_lt.mp h1)
    push_cast at h2q
    have hx : ((a % d : ℕ) : ℚ) / d = 1 / 2 := by
      rw [div_eq_div_iff hd0 (by norm_num : (2 : ℚ) ≠ 0)]
      linarith
    rw [ha, abs_le]
    constructor <;> linarith
  · have h2q : ((2 * (a % d) : ℕ) : ℚ) = (d : ℚ) := by
      exact_mod_cast le_antisymm (not_lt.mp h2) (not_lt.mp h1)
    push_cast at h2q
    have hx : ((a % d : ℕ) : ℚ) / d = 1 / 2 := by
      rw [div_eq_div_iff hd0 (by norm_num : (2 : ℚ) ≠ 0)]
      linarith
    rw [ha, abs_le]
    constructor <;> push_cast <;> linarith

/-- C3.  When the declared size exceeds MaxFileSize (200 MiB), UploadMedia
returns FileTooLarge before the file is opened or read: the effect trace is
empty and both the filesystem and the media store are unchanged.  The
message embeds the hundredths value printed by the %.2f model, and that
value is within half a hundredth of 100 times the float64 size in MiB —
the size in MiB to two decimal places. -/
theorem c3_oversized_upload_rejected_before_io (gen : Gen) (c : Codecs)
    (fh : FileHeader) (fs : FS) (st : MediaStore)
    (h : fh.size > MaxFileSize) :
    UploadMedia gen c none fh fs st =
      (.error (FileTooLarge (uploadSizeMsg fh.size)), fs, st, []) ∧
    |(roundHalfEven (100 * float64OfNonnegInt64 fh.size.toNat) 1048576 : ℚ) -
        ((100 * float64OfNonnegInt64 fh.size.toNat : ℕ) : ℚ) / 1048576| ≤ 1 / 2 := by
  refine ⟨?_, roundHalfEven_close _ 1048576 (by norm_num)⟩
  simp [UploadMedia, h]

/-- C3 witness: a 300 MiB upload rejected with the message naming
300.00 MB and no effects, and the exact-tie size 2^17 * 1601 (200.125 MiB)
rejected with the message naming 200.12 MB (the tie rounds to even, as in
the program). -/
theorem c3_witness :
    (314572800 : Int) > MaxFileSize ∧
    UploadMedia sampleGen sampleCodecs none
        { filename := "big.png", size := 314572800, contentType := "image/png",
          openErr := none, content := .ok [] } emptyFS emptyMediaStore =
      (.error (FileTooLarge
        "file size exceeds maximum limit of 200 MB (file size: 300.00 MB)"),
        emptyFS, emptyMediaStore, []) ∧
    (209846272 : Int) > MaxFileSize ∧
    UploadMedia sampleGen sampleCodecs none
        { filename := "tie.png", size := 209846272, contentType := "image/png",
          openErr := none, content := .ok [] } emptyFS emptyMediaStore =
      (.error (FileTooLarge
        "file size exceeds maximum limit of 200 MB (file size: 200.12 MB)"),
        emptyFS, emptyMediaStore, []) :=
  ⟨by decide,
    (c3_oversized_upload_rejected_before_io sampleGen sampleCodecs
      { filename := "big.png", size := 314572800, contentType := "image/png",
        openErr := none, content := .ok [] } emptyFS emptyMediaStore (by decide)).1,
    by decide,
    (c3_oversized_upload_rejected_before_io sampleGen sampleCodecs
      { filename := "tie.png", size := 209846272, contentType := "image/png",
        openErr := none, content := .ok [] } emptyFS emptyMediaStore (by decide)).1⟩

/-- C4.  When the resolved content type (declared MIME type, or the
extension-table fallback when the declared one is empty) does not contain
any supported format as a substring, UploadMedia returns UnsupportedType
naming the rejected type; nothing is written to the storage root and the
store is untouched (only the open of the source stream has happened). -/
theorem c4_unsupported_type_rejected (gen : Gen) (c : Codecs) (fh : FileHeader)
    (fs : FS) (st : MediaStore)
    (hsize : ¬ fh.size > MaxFileSize) (hopen : fh.openErr = none)
    (hbad : isValidContentType (resolveContentType fh.contentType fh.filename) = false) :
    UploadMedia gen c none fh fs st =
      (.error (UnsupportedType
        (unsupportedMsg (resolveContentType fh.contentType fh.filename))),
        fs, st, [.openFile]) := by
  simp [UploadMedia, hsize, hopen, hbad]

/-- C4 witness: a small text/plain upload is rejected as UnsupportedType
with no write and no store change. -/
theorem c4_witness :
    isValidContentType (resolveContentType "text/plain" "notes.txt") = false ∧
    UploadMedia sampleGen sampleCodecs none
        { filename := "notes.txt", size := 5000, contentType := "text/plain",
          openErr := none, content := .ok [1] } emptyFS emptyMediaStore =
      (.error (UnsupportedType
        "unsupported file type: text/plain. Supported types: JPEG, PNG, WebP, GIF, PDF"),
        emptyFS, emptyMediaStore, [.openFile]) :=
  ⟨by decide,
    c4_unsupported_type_rejected sampleGen sampleCodecs
      { filename := "notes.txt", size := 5000, contentType := "text/plain",
        openErr := none, content := .ok [1] } emptyFS emptyMediaStore
      (by decide) rfl (by decide)⟩

/-- A successful find? implies a successful any under the same predicate. -/
theorem find?_imp_any {α : Type} (pred : α → Bool) (l : List α) (a : α)
    (h : l.find? pred = some a) : l.any pred = true := by
  induction l with
  | nil => simp at h
  | cons x xs ih =>
    cases hx : pred x with
    | true => simp [List.any_cons, hx]
    | false =>
      rw [List.find?] at h
      rw [hx] at h
      simp only [List.any_cons, hx, Bool.false_or]
      exact ih h

/-- A record found under an id implies the id is bound in the store. -/
theorem mediaStoreFind_mem {st : MediaStore} {id : String} {m : Media}
    (h : mediaStoreFind st id = some m) :
    st.items.any (fun p => p.fst == id) = true := by
  unfold mediaStoreFind at h
  cases hf : st.items.find? (fun p => p.fst == id) with
  | none => rw [hf] at h; simp at h
  | some p => exact find?_imp_any _ _ p hf

/-- C7.  DeleteMedia: when no record exists for the id it returns NotFound
and leaves both the store and the filesystem unchanged; when the record
exists and the on-disk file is already absent, that counts as success and
the record is still removed; when file removal fails for a reason other
than absence, it returns Internal and the record is not removed. -/
theorem c7_delete_media_cases (st : MediaStore) (fs : FS) (id : String) :
    (mediaStoreFind st id = none →
      DeleteMedia none st fs id =
        (.error (NotFound "media not found"), st, fs, [.storeLoad id])) ∧
    (∀ m, mediaStoreFind st id = some m →
      m.filePath ∉ fs.failRemove →
      fs.files.any (fun p => p.fst == m.filePath) = false →
      DeleteMedia none st fs id =
        (.ok (), { items := st.items.filter (fun p => p.fst != id) }, fs,
          [.storeLoad id, .removeFile m.filePath, .storeDelete id])) ∧
    (∀ m, mediaStoreFind st id = some m →
      m.filePath ∈ fs.failRemove →
      DeleteMedia none st fs id =
        (.error (Internal "failed to delete file" (.fromGo (.osOther "remove failed"))),
          st, fs, [.storeLoad id, .removeFile m.filePath])) := by
  refine ⟨?_, ?_, ?_⟩
  · intro h
    simp [DeleteMedia, mediaRepoGetByID, h]
  · intro m h hfail habs
    have hmem := mediaStoreFind_mem h
    simp [DeleteMedia, mediaRepoGetByID, mediaRepoDelete, fsRemove, goIsNotExist,
      h, hfail, habs, hmem]
  · intro m h hfail
    simp [DeleteMedia, mediaRepoGetByID, fsRemove, goIsNotExist, h, hfail]

/-- C7 witness: the three delete scenarios at concrete stores — a missing
id, a present record whose file is absent, and a present record whose file
removal fails. -/
theorem c7_witness :
    DeleteMedia none sampleMediaStore emptyFS "zz" =
      (.error (NotFound "media not found"), sampleMediaStore, emptyFS,
        [.storeLoad "zz"]) ∧
    DeleteMedia none sampleMediaStore emptyFS "m1" =
      (.ok (), { items := [] }, emptyFS,
        [.storeLoad "m1", .removeFile "uploads/s1.webp", .storeDelete "m1"]) ∧
    DeleteMedia none sampleMediaStore failRemoveFS "m1" =
      (.error (Internal "failed to delete file" (.fromGo (.osOther "remove failed"))),
        sampleMediaStore, failRemoveFS,
        [.storeLoad "m1", .removeFile "uploads/s1.webp"]) :=
  ⟨(c7_delete_media_cases sampleMediaStore emptyFS "zz").1 (by decide),
    (c7_delete_media_cases sampleMediaStore emptyFS "m1").2.1 sampleMedia
      (by decide) (by decide) (by decide),
    (c7_delete_media_cases sampleMediaStore failRemoveFS "m1").2.2 sampleMedia
      (by decide) (by decide)⟩

/-- C8.  Every media service operation checks the request context at entry:
when the context is already cancelled with cause e, each of UploadMedia,
GetMedia, GetAllMedia and DeleteMedia returns Internal wrapping e, leaves
the store and the filesystem unchanged, and performs no file or store
access (the effect trace is empty). -/
theorem c8_cancelled_context_fails_fast (e : Err) (gen : Gen) (c : Codecs)
    (fh : FileHeader) (fs : FS) (st : MediaStore) (id : String) :
    UploadMedia gen c (some e) fh fs st =
      (.error (Internal "context cancelled" e), fs, st, []) ∧
    GetMedia (some e) st id = (.error (Internal "context cancelled" e), st, []) ∧
    GetAllMedia (some e) st = (.error (Internal "context cancelled" e), st, []) ∧
    DeleteMedia (some e) st fs id =
      (.error (Internal "context cancelled" e), st, fs, []) :=
  ⟨rfl, rfl, rfl, rfl⟩

/-- C9.  Creating a user with an empty name or email fails as BadRequest
(mapped to 400 by the users handler) and leaves the store unchanged;
otherwise the user is stored with exactly the submitted fields, receives a
positive identifier from the store counter, and a subsequent service-level
GetUser with that identifier returns the identical record. -/
theorem c9_create_user_roundtrip (st : UsersStore) (req : CreateUserRequest) :
    ((req.name = "" ∨ req.email = "") →
      CreateUser none st req = (.error (BadRequest "name and email are required"), st) ∧
      getStatusCode (some (BadRequest "name and email are required")) = 400) ∧
    (req.name ≠ "" → req.email ≠ "" → 0 < st.nextID →
      ∃ u st2, CreateUser none st req = (.ok u, st2) ∧
        u.name = req.name ∧ u.email = req.email ∧ u.age = req.age ∧ 0 < u.id ∧
        ServiceGetUser none st2 u.id = .ok u) := by
  constructor
  · intro h
    exact ⟨by simp [CreateUser, h], rfl⟩
  · intro hn he hid
    have hcond : ¬ (req.name = "" ∨ req.email = "") := by simp [hn, he]
    refine ⟨{ id := st.nextID, name := req.name, email := req.email, age := req.age },
      { users := (st.nextID,
          { id := st.nextID, name := req.name, email := req.email, age := req.age })
            :: st.users,
        nextID := st.nextID + 1 },
      ?_, rfl, rfl, rfl, hid, ?_⟩
    · simp [CreateUser, userRepoCreate, hcond]
    · have hpos : ¬ st.nextID ≤ 0 := not_le.mpr hid
      simp [ServiceGetUser, userRepoGetByID, usersStoreFind, hpos]

/-- C9 witness: an empty-name request is rejected against the seeded store,
and the Ann request round-trips through create and get. -/
theorem c9_witness :
    CreateUser none NewUsersInMemoryRepository
        { name := "", email := "a@x.com", age := 5 } =
      (.error (BadRequest "name and email are required"), NewUsersInMemoryRepository) ∧
    (∃ u st2,
      CreateUser none NewUsersInMemoryRepository
          { name := "Ann", email := "a@x.com", age := 22 } = (.ok u, st2) ∧
      u.name = "Ann" ∧ u.email = "a@x.com" ∧ u.age = 22 ∧ 0 < u.id ∧
      ServiceGetUser none st2 u.id = .ok u) :=
  ⟨((c9_create_user_roundtrip NewUsersInMemoryRepository
      { name := "", email := "a@x.com", age := 5 }).1 (Or.inl rfl)).1,
    (c9_create_user_roundtrip NewUsersInMemoryRepository
      { name := "Ann", email := "a@x.com", age := 22 }).2
      (by decide) (by decide) (by decide)⟩

/-- C10.  The authorization middleware stores the raw Authorization header
string in request-scoped storage under the key user — the same key the
entity-load middleware uses for the loaded User.  When the load stage has
not run after the auth check, the user entry therefore holds a string and
the typed read of it as a User fails; when the load stage runs and
succeeds, the loaded User shadows the authorization value. -/
theorem c10_user_context_key_collision :
    (∀ (r : Request) (next : HandlerFn) (st : UsersStore),
      r.authHeader ≠ "" →
      AuthMiddleware next r st =
        ((next { r with reqCtx := ("user", .str r.authHeader) :: r.reqCtx } st).fst,
          .authRan ::
            (next { r with reqCtx := ("user", .str r.authHeader) :: r.reqCtx } st).snd)) ∧
    (∀ (h : String) (c : ReqCtx),
      ctxValue (("user", .str h) :: c) "user" = some (.str h) ∧
      ctxUserAssert (("user", .str h) :: c) = none) ∧
    (∀ (r : Request) (next : HandlerFn) (st : UsersStore) (id : Int) (u : User),
      ctxUserIDAssert r.reqCtx = some id →
      userRepoGetByID r.goCtx st id = .ok u →
      LoadUserMiddleware next r st =
        ((next { r with reqCtx := ("user", .user u) :: r.reqCtx } st).fst,
          .loadRan :: .userLookup id ::
            (next { r with reqCtx := ("user", .user u) :: r.reqCtx } st).snd) ∧
      ctxUserAssert (("user", .user u) :: r.reqCtx) = some u) := by
  refine ⟨?_, ?_, ?_⟩
  · intro r next st h
    simp [AuthMiddleware, h]
  · intro h c
    exact ⟨by simp [ctxValue], by simp [ctxUserAssert, ctxValue]⟩
  · intro r next st id u h1 h2
    exact ⟨by simp [LoadUserMiddleware, h1, h2], by simp [ctxUserAssert, ctxValue]⟩

/-- C10 witness: with auth alone the terminal handler's typed read fails
(404), and a successful load shadows the auth string with the loaded user. -/
theorem c10_witness :
    AuthMiddleware GetUserTerminal
        { reqCtx := [], goCtx := none, idParam := "1", authHeader := "Bearer tok" }
        NewUsersInMemoryRepository =
      ({ status := 404, body := "user not found" }, [.authRan, .handlerRan]) ∧
    ctxUserAssert [("user", .str "Bearer tok")] = none ∧
    LoadUserMiddleware GetUserTerminal
        { reqCtx := [("userID", .int 1)], goCtx := none, idParam := "1",
          authHeader := "tok" }
        NewUsersInMemoryRepository =
      ({ status := 200,
          body := userJSON
            { id := 1, name := "John Doe", email := "john@example.com", age := 30 } },
        [.loadRan, .userLookup 1, .handlerRan]) :=
  ⟨c10_user_context_key_collision.1
      { reqCtx := [], goCtx := none, idParam := "1", authHeader := "Bearer tok" }
      GetUserTerminal NewUsersInMemoryRepository (by decide),
    (c10_user_context_key_collision.2.1 "Bearer tok" []).2,
    (c10_user_context_key_collision.2.2
      { reqCtx := [("userID", .int 1)], goCtx := none, idParam := "1",
        authHeader := "tok" }
      GetUserTerminal NewUsersInMemoryRepository 1
      { id := 1, name := "John Doe", email := "john@example.com", age := 30 }
      rfl (by decide)).1⟩

/-- The media record, filesystem and store produced by the sample JPEG
upload. -/
def sampleUploadedMedia : Media :=
  { id := "9a1b", originalName := "photo.jpg", storedName := "4f2c_42.webp",
    type := "image", format := "webp", sizeBytes := 5,
    filePath := "uploads/4f2c_42.webp", uploadedAt := 7, width := 640, height := 480 }

def sampleUploadedFS : FS :=
  { files := [("uploads/4f2c_42.webp", [1, 2, 3, 4, 5])],
    failWrite := [], failRemove := [] }

def sampleUploadedStore : MediaStore := { items := [("9a1b", sampleUploadedMedia)] }

/-- C5, counterexample.  A successful upload of a valid JPEG writes the
buffer produced by the JPEG encoder (jpeg.Encode at quality 85 — the
encodeImg 85 trace event marks that call site), yet the Media record's
format field is the fixed label webp, which is not the name of the format
the bytes were actually re-encoded into. -/
theorem c5_format_field_is_not_encode_format :
    UploadMedia sampleGen sampleCodecs none sampleJPEGHeader emptyFS emptyMediaStore =
      (.ok sampleUploadedMedia, sampleUploadedFS, sampleUploadedStore,
        [.openFile, .readFile, .encodeImg 85,
          .writeFile "uploads/4f2c_42.webp", .storeSave "9a1b"]) ∧
    sampleUploadedMedia.format = "webp" ∧
    fsFind sampleUploadedFS sampleUploadedMedia.filePath =
      sampleCodecs.jpegEncode ImageQuality sampleImg ∧
    "webp" ≠ "jpeg" :=
  ⟨rfl, rfl, rfl, by decide⟩

/-- C5, amended.  Uploading a valid JPEG of pixel dimensions W by H (with
the upload passing the size, open, and content-type stages, the decode
succeeding with those bounds, the re-encode at quality 85 producing buf,
the write succeeding and the generated id nonempty) yields a Media record
with type image, format equal to the fixed label webp (while the bytes are
re-encoded by the JPEG encoder at quality 85), width W, height H, and size
equal to the byte length of the re-encoded buffer actually written to the
filesystem. -/
theorem c5_jpeg_upload_roundtrip (gen : Gen) (c : Codecs) (fh : FileHeader)
    (fs : FS) (st : MediaStore) (bytes buf : List Nat) (img : GoImage) (W H : Int)
    (hsize : ¬ fh.size > MaxFileSize) (hopen : fh.openErr = none)
    (hct : fh.contentType = "image/jpeg")
    (hcontent : fh.content = .ok bytes)
    (hdec : c.jpegDecode bytes = some img)
    (hbounds : img.bounds = ⟨0, 0, W, H⟩) (hW : 0 < W)
    (henc : c.jpegEncode ImageQuality img = some buf)
    (hwrite : ("uploads/" ++ (gen.nameTok ++ "_" ++ toString gen.nanos ++ "." ++ "webp"))
      ∉ fs.failWrite)
    (hid : gen.mediaID ≠ "") :
    ∃ m fs2 st2,
      UploadMedia gen c none fh fs st =
        (.ok m, fs2, st2,
          [.openFile, .readFile, .encodeImg ImageQuality,
            .writeFile m.filePath, .storeSave m.id]) ∧
      m.type = "image" ∧ m.format = "webp" ∧ m.width = W ∧ m.height = H ∧
      m.sizeBytes = (buf.length : Int) ∧ fsFind fs2 m.filePath = some buf ∧
      mediaStoreFind st2 m.id = some m := by
  have hvalid : isValidContentType "image/jpeg" = true := by decide
  have himg : isImageType "image/jpeg" = true := by decide
  have hjp : goContains "image/jpeg" "jpeg" = true := by decide
  have hopt : optimizeImage c bytes "image/jpeg" = .ok (buf, img.bounds) := by
    simp [optimizeImage, decodeSwitch, hjp, hdec, henc]
  refine ⟨
    { id := gen.mediaID, originalName := fh.filename,
      storedName := gen.nameTok ++ "_" ++ toString gen.nanos ++ "." ++ "webp",
      type := "image", format := "webp", sizeBytes := (buf.length : Int),
      filePath :=
        "uploads/" ++ (gen.nameTok ++ "_" ++ toString gen.nanos ++ "." ++ "webp"),
      uploadedAt := gen.now, width := W, height := H },
    { files :=
        ("uploads/" ++ (gen.nameTok ++ "_" ++ toString gen.nanos ++ "." ++ "webp"), buf)
          :: fs.files.filter (fun p =>
            p.fst != "uploads/" ++ (gen.nameTok ++ "_" ++ toString gen.nanos ++ "." ++ "webp")),
      failWrite := fs.failWrite, failRemove := fs.failRemove },
    { items :=
        (gen.mediaID,
          { id := gen.mediaID, originalName := fh.filename,
            storedName := gen.nameTok ++ "_" ++ toString gen.nanos ++ "." ++ "webp",
            type := "image", format := "webp", sizeBytes := (buf.length : Int),
            filePath :=
              "uploads/" ++ (gen.nameTok ++ "_" ++ toString gen.nanos ++ "." ++ "webp"),
            uploadedAt := gen.now, width := W, height := H }) :: st.items },
    ?_, rfl, rfl, rfl, rfl, rfl, ?_, ?_⟩
  · simp [UploadMedia, hsize, hopen, hct, resolveContentType, hvalid, himg,
      hcontent, hopt, hbounds, hW, uploadFinish, fsWrite, hwrite,
      mediaRepoSave, hid]
  · simp [fsFind]
  · simp [mediaStoreFind]

/-- C5 witness for the amended claim: the sample JPEG upload instantiates
every hypothesis. -/
theorem c5_witness :
    ∃ m fs2 st2,
      UploadMedia sampleGen sampleCodecs none sampleJPEGHeader emptyFS emptyMediaStore =
        (.ok m, fs2, st2,
          [.openFile, .readFile, .encodeImg ImageQuality,
            .writeFile m.filePath, .storeSave m.id]) ∧
      m.type = "image" ∧ m.format = "webp" ∧ m.width = 640 ∧ m.height = 480 ∧
      m.sizeBytes = (5 : Int) ∧ fsFind fs2 m.filePath = some [1, 2, 3, 4, 5] ∧
      mediaStoreFind st2 m.id = some m := by
  have h := c5_jpeg_upload_roundtrip sampleGen sampleCodecs sampleJPEGHeader
    emptyFS emptyMediaStore [255, 216] [1, 2, 3, 4, 5] sampleImg 640 480
    (by decide) rfl rfl rfl (by decide) rfl (by decide) (by decide)
    (by decide) (by decide)
  simpa using h

end GoSrv
